import Mathlib

/-!
Verification of the legal-backend HTTP server (src/server.js) against its
natural-language specification.  The handlers of the server are embedded as pure
Lean functions; the external collaborators (filesystem reads, pdf parsing,
file deletion, the remote completion call) are passed in explicitly as
`Except`-valued oracles so that every exit path of the source is represented.
-/

namespace LegalBackend

/-! ## MIME types and upload filter (server.js lines 33-47) -/

def pdfMime : String := "application/pdf"

def mswordMime : String := "application/msword"

def docxMime : String :=
  "application/vnd.openxmlformats-officedocument.wordprocessingml.document"

/-- The multer fileFilter callback (lines 35-43): accept iff the declared
MIME type is PDF, legacy Word or OOXML Word. -/
def fileFilterAccepts (mimetype : String) : Bool :=
  mimetype = pdfMime || mimetype = mswordMime || mimetype = docxMime

/-- limits.fileSize (line 45): 5 * 1024 * 1024 bytes. -/
def fileSizeLimit : Nat := 5 * 1024 * 1024

/-- Modelled from the spec: multer itself is not part of src/; per the spec
the upload filter runs before storage ("rejection prevents the Temp File
Store from being invoked"), so an upload is accepted iff the configured
fileFilter passes and the size is within limits.fileSize. -/
def multerAccepts (mimetype : String) (size : Nat) : Bool :=
  fileFilterAccepts mimetype && size ≤ fileSizeLimit

/-- Modelled from the spec: the Temp File Store is invoked (a temp file is
created on disk) exactly for the uploads multer accepts. -/
def tempFileCreated (mimetype : String) (size : Nat) : Bool :=
  multerAccepts mimetype size

/-! ## Data model of the upload endpoint (server.js lines 141-188) -/

/-- A file accepted by multer, as seen by the handler: req.files[i]. -/
structure UploadedFile where
  originalname : String
  path : String
  mimetype : String
  size : Nat
deriving DecidableEq, Repr

/-- One element of the processedFiles response array.  The success shape
(lines 158-162) carries filename, content and size; the failure shape
(lines 168-171) carries filename and error only. -/
inductive Entry where
  | ok (filename : String) (content : String) (size : Nat)
  | err (filename : String) (error : String)
deriving DecidableEq, Repr

/-- The fallible external operations one iteration of the per-file loop can
perform: fs.readFile(file.path), pdf(dataBuffer) (its .text field), and
fs.unlink(file.path).  `Except.error` models the promise rejecting with the
given message. -/
structure FileOps where
  readFile : Except String String
  pdfParse : String → Except String String
  unlink : Except String Unit

/-- The try block of the per-file loop (lines 150-165).  Returns the entries
pushed onto processedFiles so far, whether fs.unlink completed (the temp
file was deleted from disk), and the message of the thrown error, if any.
Mirrors the source order: content is the empty string unless the MIME type is PDF, in
which case readFile then pdf run; the success entry is pushed; only then is
fs.unlink awaited. -/
def tryProcessFile (file : UploadedFile) (ops : FileOps) :
    List Entry × Bool × Option String :=
  if file.mimetype = pdfMime then
    match ops.readFile with
    | .error e => ([], false, some e)
    | .ok dataBuffer =>
      match ops.pdfParse dataBuffer with
      | .error e => ([], false, some e)
      | .ok text =>
        match ops.unlink with
        | .error e => ([.ok file.originalname text file.size], false, some e)
        | .ok _ => ([.ok file.originalname text file.size], true, none)
  else
    match ops.unlink with
    | .error e => ([.ok file.originalname "" file.size], false, some e)
    | .ok _ => ([.ok file.originalname "" file.size], true, none)

/-- The fixed message pushed by the per-file catch (line 170). -/
def processFileError : String := "Failed to process file"

/-- One full iteration of the per-file loop, try plus catch (lines 149-173):
the entries appended to processedFiles for this file, and whether the temp
file was deleted.  The catch block appends the fixed error entry; it does
not delete the temp file. -/
def processOneFile (file : UploadedFile) (ops : FileOps) : List Entry × Bool :=
  match tryProcessFile file ops with
  | (pushed, deleted, none) => (pushed, deleted)
  | (pushed, deleted, some _) =>
      (pushed ++ [.err file.originalname processFileError], deleted)

/-- Whether the extraction phase of one iteration (everything before the push)
succeeds: for PDF both readFile and pdf must resolve; for other types there
is nothing to fail. -/
def extractionSucceeds (file : UploadedFile) (ops : FileOps) : Bool :=
  if file.mimetype = pdfMime then
    match ops.readFile with
    | .error _ => false
    | .ok dataBuffer => (ops.pdfParse dataBuffer).isOk
  else true

/-- Responses of POST /upload-training-files. -/
inductive UploadResponse where
  | badRequest (error : String)
  | okJson (success : Bool) (message : String) (processedFiles : List Entry)
  | serverError (error : String) (details : Option String)
deriving DecidableEq, Repr

def UploadResponse.status : UploadResponse → Nat
  | .badRequest _ => 400
  | .okJson _ _ _ => 200
  | .serverError _ _ => 500

def UploadResponse.processedFiles : UploadResponse → List Entry
  | .okJson _ _ fs => fs
  | _ => []

/-- The upload handler body (lines 142-179): 400 when req.files is missing
or empty, otherwise run the per-file loop over the batch in order and
respond 200 with success: true and the accumulated processedFiles. -/
def uploadTrainingFiles (files : List UploadedFile)
    (ops : UploadedFile → FileOps) : UploadResponse :=
  if files.isEmpty then
    .badRequest "No files uploaded"
  else
    .okJson true "Files processed successfully"
      (files.flatMap fun f => (processOneFile f (ops f)).1)

/-- The outer catch of the upload handler (lines 181-187).  It takes the
ambient NODE_ENV but, unlike the catch blocks of the other handlers, does not consult
it: details always carries error.message. -/
def uploadCatch (_nodeEnv : String) (msg : String) : UploadResponse :=
  .serverError "Failed to process files" (some msg)

/-! ## Completion endpoints (server.js lines 54-138) -/

/-- JS truthiness of an optional string body field: `!x` holds when the
field is absent or the empty string. -/
def isBlank : Option String → Bool
  | none => true
  | some s => s = ""

/-- details is included iff process.env.NODE_ENV equals development
(lines 90, 135, 195). -/
def devDetails (nodeEnv : String) (msg : String) : Option String :=
  if nodeEnv = "development" then some msg else none

/-- The template literal of /generate-document (lines 66-78), transcribed
verbatim including its whitespace. -/
def generateDocumentPrompt (documentType details : String) : String :=
  "\n            Generate a professional " ++ documentType ++
  " following Indian legal standards.\n            \n            Details provided:\n            " ++
  details ++
  "\n            \n            Requirements:\n            1. Follow Indian legal format\n            2. Include all necessary clauses\n            3. Use formal legal language\n            4. Ensure compliance with Indian laws\n            5. Include jurisdiction under Indian courts\n        "

/-- The template literal of /chat (lines 108-120), transcribed verbatim
including its whitespace. -/
def chatPrompt (message : String) : String :=
  "\n            You are an expert Indian legal assistant. Provide a clear and helpful response to this question: \"" ++
  message ++
  "\"\n\n            Guidelines:\n            1. Use simple, clear language\n            2. Reference specific Indian laws and regulations\n            3. Include relevant legal precedents if applicable\n            4. Suggest consulting a lawyer for complex matters\n            5. Structure the response clearly\n            6. Keep it concise but informative\n\n            Important: Always include a disclaimer that this is general information and not legal advice.\n        "

/-- Request body of POST /generate-document. -/
structure GenRequest where
  documentType : Option String
  details : Option String
deriving DecidableEq, Repr

/-- Responses of POST /generate-document. -/
inductive GenResponse where
  | badRequest (error : String)
  | okDocument (document : String)
  | serverError (error : String) (details : Option String)
deriving DecidableEq, Repr

def GenResponse.status : GenResponse → Nat
  | .badRequest _ => 400
  | .okDocument _ => 200
  | .serverError _ _ => 500

/-- The /generate-document handler (lines 54-93).  `generateContent` is the
external completion collaborator; the second component counts how many
times it was called.  Validation (lines 58-62) returns 400 before any
external call; the catch (lines 86-92) maps a rejected call to 500 with the
generic message and development-only details. -/
def generateDocument (req : GenRequest) (nodeEnv : String)
    (generateContent : String → Except String String) : GenResponse × Nat :=
  if isBlank req.documentType || isBlank req.details then
    (.badRequest "Document type and details are required", 0)
  else
    match generateContent
        (generateDocumentPrompt (req.documentType.getD "") (req.details.getD "")) with
    | .ok text => (.okDocument text, 1)
    | .error e =>
        (.serverError "Failed to generate document" (devDetails nodeEnv e), 1)

/-- Request body of POST /chat. -/
structure ChatRequest where
  message : Option String
deriving DecidableEq, Repr

/-- Responses of POST /chat. -/
inductive ChatResponse where
  | badRequest (error : String)
  | okChat (response : String) (status : String)
  | serverError (error : String) (details : Option String)
deriving DecidableEq, Repr

def ChatResponse.httpStatus : ChatResponse → Nat
  | .badRequest _ => 400
  | .okChat _ _ => 200
  | .serverError _ _ => 500

/-- The /chat handler (lines 96-138), analogous to /generate-document. -/
def chat (req : ChatRequest) (nodeEnv : String)
    (generateContent : String → Except String String) : ChatResponse × Nat :=
  if isBlank req.message then
    (.badRequest "Message is required", 0)
  else
    match generateContent (chatPrompt (req.message.getD "")) with
    | .ok text => (.okChat text "success", 1)
    | .error e =>
        (.serverError "Failed to process your question. Please try again."
          (devDetails nodeEnv e), 1)

/-- The error-handling middleware (lines 191-197). -/
def errorMiddleware (nodeEnv : String) (msg : String) : UploadResponse :=
  .serverError "Internal server error" (devDetails nodeEnv msg)

/-! ## Helper lemmas -/

/-- How many entries one iteration of the per-file loop appends: two when
the extraction phase succeeds and fs.unlink then rejects (the success entry
followed by the catch entry), otherwise exactly one. -/
lemma processOneFile_length (file : UploadedFile) (ops : FileOps) :
    (processOneFile file ops).1.length =
      (if extractionSucceeds file ops && !(ops.unlink).isOk then 2 else 1) := by
  unfold processOneFile tryProcessFile extractionSucceeds
  by_cases h : file.mimetype = pdfMime
  · simp only [if_pos h]
    cases hr : ops.readFile with
    | error e => simp [hr, Except.isOk, Except.toBool]
    | ok dataBuffer =>
      cases hp : ops.pdfParse dataBuffer with
      | error e => simp [hr, hp, Except.isOk, Except.toBool]
      | ok text =>
        cases hu : ops.unlink with
        | error e => simp [hr, hp, hu, Except.isOk, Except.toBool]
        | ok u => simp [hr, hp, hu, Except.isOk, Except.toBool]
  · simp only [if_neg h]
    cases hu : ops.unlink with
    | error e => simp [hu, Except.isOk, Except.toBool]
    | ok u => simp [hu, Except.isOk, Except.toBool]

/-- Every iteration of the per-file loop appends at least one entry. -/
lemma processOneFile_ne_nil (file : UploadedFile) (ops : FileOps) :
    (processOneFile file ops).1 ≠ [] := by
  intro h
  have hl := processOneFile_length file ops
  rw [h] at hl
  by_cases hc : extractionSucceeds file ops && !(ops.unlink).isOk
  · rw [if_pos hc] at hl; exact absurd hl (by decide)
  · rw [if_neg hc] at hl; exact absurd hl (by decide)

/-- When the extraction phase of a file fails, its iteration appends the
fixed error entry. -/
lemma processOneFile_err_of_extraction_failure (file : UploadedFile)
    (ops : FileOps) (h : extractionSucceeds file ops = false) :
    Entry.err file.originalname processFileError ∈ (processOneFile file ops).1 := by
  unfold extractionSucceeds at h
  unfold processOneFile tryProcessFile
  by_cases hm : file.mimetype = pdfMime
  · rw [if_pos hm] at h ⊢
    cases hr : ops.readFile with
    | error e => simp [hr]
    | ok dataBuffer =>
      rw [hr] at h
      simp only at h
      cases hp : ops.pdfParse dataBuffer with
      | error e => simp [hr, hp]
      | ok text => rw [hp] at h; exact absurd h (by simp [Except.isOk, Except.toBool])
  · rw [if_neg hm] at h
    exact absurd h (by simp)

set_option maxRecDepth 8192 in
/-- The document-generation template never collapses to the empty string:
its fixed text has positive length for any interpolated fields. -/
lemma generateDocumentPrompt_ne_empty (documentType details : String) :
    generateDocumentPrompt documentType details ≠ "" := by
  intro h
  have hlen := congrArg String.length h
  simp [generateDocumentPrompt, String.length_append] at hlen
  exact absurd hlen.2 (by decide)

set_option maxRecDepth 8192 in
/-- The chat template never collapses to the empty string. -/
lemma chatPrompt_ne_empty (message : String) : chatPrompt message ≠ "" := by
  intro h
  have hlen := congrArg String.length h
  simp [chatPrompt, String.length_append] at hlen
  exact absurd hlen.2 (by decide)

/-! ## Claims -/

/-- C1: the spec states that the stored temp file is deleted after per-file
processing on every exit path, success or failure.  The code violates this:
at a concrete accepted PDF upload whose pdf extraction rejects, the loop
records the catch entry but never reaches fs.unlink (which sits after the
push inside the try block), so the temp file is not deleted — the second
component of processOneFile is false. -/
theorem C1_temp_file_survives_extraction_failure :
    processOneFile
      ⟨"contract.pdf", "uploads/files-1700000000000-123456789.pdf", pdfMime, 10240⟩
      ⟨.ok "%PDF-1.4 raw bytes", fun _ => .error "bad XRef entry", .ok ()⟩ =
      ([.err "contract.pdf" "Failed to process file"], false) := rfl

/-- C2: the spec states that 500 bodies carry internal detail only outside
production.  The code violates this at the upload endpoint: the catch block
of /upload-training-files puts error.message into details unconditionally,
so with NODE_ENV equal to "production" the internal message still reaches
the client. -/
theorem C2_upload_catch_includes_details_in_production :
    uploadCatch "production" "ENOENT: no such file or directory" =
      .serverError "Failed to process files"
        (some "ENOENT: no such file or directory") := rfl

/-- C3 counterexample: a batch of one accepted OOXML Word file whose temp
file deletion rejects produces two processedFiles entries for that single
file — the success entry pushed before fs.unlink, then the catch entry — so
"exactly one entry per uploaded file" fails as stated. -/
theorem C3_counterexample :
    uploadTrainingFiles
      [⟨"notes.docx", "uploads/files-1700000000001-987654321.docx", docxMime, 2048⟩]
      (fun _ => ⟨.ok "", fun _ => .ok "", .error "EPERM: operation not permitted"⟩) =
      .okJson true "Files processed successfully"
        [.ok "notes.docx" "" 2048, .err "notes.docx" "Failed to process file"] ∧
    [Entry.ok "notes.docx" "" 2048, Entry.err "notes.docx" "Failed to process file"].length = 2 :=
  ⟨rfl, rfl⟩

/-- C3 amended: each uploaded file contributes at least one and at most two
ProcessedFileResult entries, and exactly one unless its extraction succeeds
and the subsequent temp-file deletion fails, in which case both a success
entry and an error entry are appended for that file. -/
theorem C3_per_file_entry_count (file : UploadedFile) (ops : FileOps) :
    (processOneFile file ops).1.length =
      (if extractionSucceeds file ops && !(ops.unlink).isOk then 2 else 1) :=
  processOneFile_length file ops

/-- C4: every nonempty batch is answered 200 with success true and the
ordered concatenation of the independent per-file results; every file of
the batch contributes at least one entry (the batch is never aborted by one
file), and a file whose extraction fails contributes the error entry. -/
theorem C4_per_file_failures_isolated (files : List UploadedFile)
    (ops : UploadedFile → FileOps) (h : files ≠ []) :
    (uploadTrainingFiles files ops).status = 200 ∧
    uploadTrainingFiles files ops =
      .okJson true "Files processed successfully"
        (files.flatMap fun f => (processOneFile f (ops f)).1) ∧
    (∀ f ∈ files, (processOneFile f (ops f)).1 ≠ []) ∧
    (∀ f ∈ files, extractionSucceeds f (ops f) = false →
      Entry.err f.originalname "Failed to process file" ∈ (processOneFile f (ops f)).1) := by
  have hne : files.isEmpty = false := by
    cases files with
    | nil => exact absurd rfl h
    | cons a l => rfl
  refine ⟨?_, ?_, ?_, ?_⟩
  · unfold uploadTrainingFiles
    rw [hne]
    rfl
  · unfold uploadTrainingFiles
    rw [hne]
    rfl
  · intro f _
    exact processOneFile_ne_nil f (ops f)
  · intro f _ hf
    exact processOneFile_err_of_extraction_failure f (ops f) hf

/-- C4 witness: a two-file batch in which the first file (a PDF whose parse
rejects) fails and the second (a Word file) still succeeds. -/
theorem C4_batch_witness :
    (uploadTrainingFiles
        [⟨"bad.pdf", "uploads/files-1-1.pdf", "application/pdf", 100⟩,
         ⟨"good.doc", "uploads/files-2-2.doc", "application/msword", 200⟩]
        (fun f =>
          if f.originalname = "bad.pdf" then
            ⟨.ok "bytes", fun _ => .error "parse failure", .ok ()⟩
          else ⟨.ok "", fun _ => .ok "", .ok ()⟩)).status = 200 ∧
    uploadTrainingFiles
        [⟨"bad.pdf", "uploads/files-1-1.pdf", "application/pdf", 100⟩,
         ⟨"good.doc", "uploads/files-2-2.doc", "application/msword", 200⟩]
        (fun f =>
          if f.originalname = "bad.pdf" then
            ⟨.ok "bytes", fun _ => .error "parse failure", .ok ()⟩
          else ⟨.ok "", fun _ => .ok "", .ok ()⟩) =
      .okJson true "Files processed successfully"
        ([⟨"bad.pdf", "uploads/files-1-1.pdf", "application/pdf", 100⟩,
          ⟨"good.doc", "uploads/files-2-2.doc", "application/msword", 200⟩].flatMap
          fun f =>
            (processOneFile f
              ((fun f =>
                if f.originalname = "bad.pdf" then
                  ⟨.ok "bytes", fun _ => .error "parse failure", .ok ()⟩
                else ⟨.ok "", fun _ => .ok "", .ok ()⟩) f)).1) ∧
    (∀ f ∈ [⟨"bad.pdf", "uploads/files-1-1.pdf", "application/pdf", 100⟩,
            ⟨"good.doc", "uploads/files-2-2.doc", "application/msword", 200⟩],
      (processOneFile f
        ((fun f =>
          if f.originalname = "bad.pdf" then
            ⟨.ok "bytes", fun _ => .error "parse failure", .ok ()⟩
          else ⟨.ok "", fun _ => .ok "", .ok ()⟩) f)).1 ≠ []) ∧
    (∀ f ∈ [⟨"bad.pdf", "uploads/files-1-1.pdf", "application/pdf", 100⟩,
            ⟨"good.doc", "uploads/files-2-2.doc", "application/msword", 200⟩],
      extractionSucceeds f
          ((fun f =>
            if f.originalname = "bad.pdf" then
              ⟨.ok "bytes", fun _ => .error "parse failure", .ok ()⟩
            else ⟨.ok "", fun _ => .ok "", .ok ()⟩) f) = false →
        Entry.err f.originalname "Failed to process file" ∈
          (processOneFile f
            ((fun f =>
              if f.originalname = "bad.pdf" then
                ⟨.ok "bytes", fun _ => .error "parse failure", .ok ()⟩
              else ⟨.ok "", fun _ => .ok "", .ok ()⟩) f)).1) :=
  C4_per_file_failures_isolated
    [⟨"bad.pdf", "uploads/files-1-1.pdf", "application/pdf", 100⟩,
     ⟨"good.doc", "uploads/files-2-2.doc", "application/msword", 200⟩]
    (fun f =>
      if f.originalname = "bad.pdf" then
        ⟨.ok "bytes", fun _ => .error "parse failure", .ok ()⟩
      else ⟨.ok "", fun _ => .ok "", .ok ()⟩)
    (by decide)

/-- C5: a /generate-document request with documentType or details missing
or empty, and a /chat request with message missing or empty, are answered
400 with the fixed error bodies, and the external completion collaborator
is called zero times. -/
theorem C5_validation_no_external_call
    (gen : GenRequest) (creq : ChatRequest) (nodeEnv : String)
    (generateContent : String → Except String String)
    (hg : isBlank gen.documentType = true ∨ isBlank gen.details = true)
    (hc : isBlank creq.message = true) :
    generateDocument gen nodeEnv generateContent =
      (.badRequest "Document type and details are required", 0) ∧
    (generateDocument gen nodeEnv generateContent).1.status = 400 ∧
    chat creq nodeEnv generateContent = (.badRequest "Message is required", 0) ∧
    (chat creq nodeEnv generateContent).1.httpStatus = 400 := by
  have h1 : generateDocument gen nodeEnv generateContent =
      (.badRequest "Document type and details are required", 0) := by
    unfold generateDocument
    rcases hg with hg | hg <;> simp [hg]
  have h2 : chat creq nodeEnv generateContent =
      (.badRequest "Message is required", 0) := by
    unfold chat
    simp [hc]
  refine ⟨h1, ?_, h2, ?_⟩
  · rw [h1]
    rfl
  · rw [h2]
    rfl

/-- C5 witness: the request bodies missing documentType and carrying an
empty message, at a concrete completion oracle. -/
theorem C5_empty_request_witness :
    generateDocument ⟨none, some "sale deed for a flat"⟩ "production"
        (fun _ => .ok "text") =
      (.badRequest "Document type and details are required", 0) ∧
    (generateDocument ⟨none, some "sale deed for a flat"⟩ "production"
        (fun _ => .ok "text")).1.status = 400 ∧
    chat ⟨some ""⟩ "production" (fun _ => .ok "text") =
      (.badRequest "Message is required", 0) ∧
    (chat ⟨some ""⟩ "production" (fun _ => .ok "text")).1.httpStatus = 400 :=
  C5_validation_no_external_call ⟨none, some "sale deed for a flat"⟩ ⟨some ""⟩
    "production" (fun _ => .ok "text") (Or.inl rfl) (by decide)

/-- C6: when validation passes and the completion collaborator resolves
with some text, /generate-document answers 200 with document equal to that
text and /chat answers 200 with response equal to that text and status
success — the text is passed through unmodified. -/
theorem C6_success_text_passthrough (documentType details message text nodeEnv : String)
    (generateContent : String → Except String String)
    (hdt : documentType ≠ "") (hd : details ≠ "") (hm : message ≠ "")
    (hgen : generateContent (generateDocumentPrompt documentType details) = .ok text)
    (hchat : generateContent (chatPrompt message) = .ok text) :
    generateDocument ⟨some documentType, some details⟩ nodeEnv generateContent =
      (.okDocument text, 1) ∧
    (GenResponse.okDocument text).status = 200 ∧
    chat ⟨some message⟩ nodeEnv generateContent = (.okChat text "success", 1) ∧
    (ChatResponse.okChat text "success").httpStatus = 200 := by
  refine ⟨?_, rfl, ?_, rfl⟩
  · unfold generateDocument
    simp [isBlank, hdt, hd, hgen]
  · unfold chat
    simp [isBlank, hm, hchat]

/-- C6 witness: a concrete completion oracle that resolves with a fixed
text for every prompt, at concrete non-empty request fields. -/
theorem C6_concrete_witness :
    generateDocument ⟨some "Rental Agreement", some "11 month lease in Pune"⟩
        "production" (fun _ => .ok "generated text") =
      (.okDocument "generated text", 1) ∧
    (GenResponse.okDocument "generated text").status = 200 ∧
    chat ⟨some "What is Section 498A?"⟩ "production"
        (fun _ => .ok "generated text") =
      (.okChat "generated text" "success", 1) ∧
    (ChatResponse.okChat "generated text" "success").httpStatus = 200 :=
  C6_success_text_passthrough "Rental Agreement" "11 month lease in Pune"
    "What is Section 498A?" "generated text" "production"
    (fun _ => .ok "generated text") (by decide) (by decide) (by decide) rfl rfl

/-- C7: the upload pipeline accepts a candidate exactly when its MIME type
is PDF, legacy Word or OOXML Word and its size is at most 5242880 bytes,
and the temp file store is invoked exactly for accepted candidates, so a
rejected file creates no temp file on disk. -/
theorem C7_upload_filter_exact (mimetype : String) (size : Nat) :
    (multerAccepts mimetype size = true ↔
      ((mimetype = pdfMime ∨ mimetype = mswordMime ∨ mimetype = docxMime) ∧
        size ≤ 5242880)) ∧
    tempFileCreated mimetype size = multerAccepts mimetype size := by
  constructor
  · unfold multerAccepts fileFilterAccepts fileSizeLimit
    simp [Bool.and_eq_true, Bool.or_eq_true, decide_eq_true_iff, or_assoc]
  · rfl

/-- C8: an accepted file whose MIME type is a Word type (not PDF) and whose
iteration does not fail yields exactly one entry, with content equal to the
empty string and no error field, and its temp file is deleted. -/
theorem C8_word_file_empty_content_no_error (file : UploadedFile) (ops : FileOps)
    (hm : file.mimetype = mswordMime ∨ file.mimetype = docxMime)
    (hu : ops.unlink = .ok ()) :
    processOneFile file ops = ([.ok file.originalname "" file.size], true) := by
  have hne : file.mimetype ≠ pdfMime := by
    rcases hm with hm | hm <;> rw [hm] <;> decide
  unfold processOneFile tryProcessFile
  rw [if_neg hne, hu]

/-- C8 witness: a concrete legacy Word upload whose deletion succeeds. -/
theorem C8_word_witness :
    processOneFile ⟨"brief.doc", "uploads/files-1700000000002-3.doc", mswordMime, 4096⟩
      ⟨.ok "", fun _ => .ok "", .ok ()⟩ =
      ([.ok "brief.doc" "" 4096], true) :=
  C8_word_file_empty_content_no_error
    ⟨"brief.doc", "uploads/files-1700000000002-3.doc", mswordMime, 4096⟩
    ⟨.ok "", fun _ => .ok "", .ok ()⟩ (Or.inl rfl) rfl

/-- C9: the prompt builders are pure functions, so building twice from
identical inputs yields identical strings, and on non-empty inputs the
built prompt is a non-empty string. -/
theorem C9_prompt_builder_pure (documentType details message : String)
    (h1 : documentType ≠ "") (h2 : details ≠ "") (h3 : message ≠ "") :
    generateDocumentPrompt documentType details =
      generateDocumentPrompt documentType details ∧
    chatPrompt message = chatPrompt message ∧
    generateDocumentPrompt documentType details ≠ "" ∧
    chatPrompt message ≠ "" :=
  ⟨rfl, rfl, generateDocumentPrompt_ne_empty documentType details,
    chatPrompt_ne_empty message⟩

/-- C9 witness: concrete non-empty fields. -/
theorem C9_concrete_witness :
    generateDocumentPrompt "Rental Agreement" "11 month lease in Pune" =
      generateDocumentPrompt "Rental Agreement" "11 month lease in Pune" ∧
    chatPrompt "What is Section 498A?" = chatPrompt "What is Section 498A?" ∧
    generateDocumentPrompt "Rental Agreement" "11 month lease in Pune" ≠ "" ∧
    chatPrompt "What is Section 498A?" ≠ "" :=
  C9_prompt_builder_pure "Rental Agreement" "11 month lease in Pune"
    "What is Section 498A?" (by decide) (by decide) (by decide)

/-- C10: whenever the per-file try block throws, whatever the thrown
message, the catch appends exactly the entry carrying the original filename
and the fixed text "Failed to process file": the underlying message never
reaches the client, and the error entry carries no content and no size. -/
theorem C10_catch_entry_fixed (file : UploadedFile) (ops : FileOps)
    (pushed : List Entry) (deleted : Bool) (e : String)
    (h : tryProcessFile file ops = (pushed, deleted, some e)) :
    processOneFile file ops =
      (pushed ++ [Entry.err file.originalname "Failed to process file"], deleted) := by
  unfold processOneFile
  rw [h]
  rfl

/-- C10 witness: a concrete PDF upload whose readFile rejects with an
internal message; the client-visible entry is the fixed error entry. -/
theorem C10_catch_entry_witness :
    processOneFile ⟨"scan.pdf", "uploads/files-1700000000003-4.pdf", pdfMime, 512⟩
      ⟨.error "EACCES: permission denied", fun _ => .ok "", .ok ()⟩ =
      ([] ++ [Entry.err "scan.pdf" "Failed to process file"], false) :=
  C10_catch_entry_fixed
    ⟨"scan.pdf", "uploads/files-1700000000003-4.pdf", pdfMime, 512⟩
    ⟨.error "EACCES: permission denied", fun _ => .ok "", .ok ()⟩
    [] false "EACCES: permission denied" rfl

end LegalBackend
